import Mathlib

/-!
Verification of the fingertip-paint application (gesture classification,
position filtering, stroke persistence, UI hit-testing and the per-frame
controller) against its natural-language specification.

Shallow embedding conventions:
* Python `float` values are modelled as exact rationals (`ℚ`); Python `int`
  values as `ℤ` (or `ℕ` for raster dimensions, which are non-negative).
* Python `//` (floor division) is `Int.fdiv`; Python `int(...)` applied to a
  float is truncation toward zero (`ratTrunc` below).
* The raster produced by the external OpenCV drawing primitives (`cv2.line`,
  `cv2.circle`, `cv2.resize`) is represented as the exact sequence of
  primitive operations applied to a uniform background fill (`Img` below):
  two canvases whose `Img` terms are equal are pixel-for-pixel identical,
  because the same primitives applied to the same base produce the same
  pixels.
* A Python method that can raise is embedded in `Except String`; the error
  string records which exception the interpreter would raise.
-/

/-- Truncation toward zero, the semantics of Python `int(...)` on a float. -/
def ratTrunc (q : ℚ) : ℤ := if 0 ≤ q then ⌊q⌋ else ⌈q⌉

theorem ratTrunc_intCast (n : ℤ) : ratTrunc (n : ℚ) = n := by
  unfold ratTrunc
  split <;> simp

/-- One MediaPipe hand landmark: normalized (x, y) plus relative depth z
(`landmark.x`, `landmark.y`, `landmark.z` in the source). -/
structure Landmark where
  x : ℚ
  y : ℚ
  z : ℚ
deriving DecidableEq

/-- One detected hand: the list of 21 landmarks
(`hand_landmarks.landmark` in the source). -/
abbrev Hand := List Landmark

/-- Landmark lookup `landmarks[i]` (MediaPipe always supplies 21 points;
out-of-range indices return a zero landmark to keep the function total). -/
def landmark (hand : Hand) (i : ℕ) : Landmark := hand.getD i ⟨0, 0, 0⟩

/-- Index of `mp_hands.HandLandmark.WRIST`. -/
def WRIST : ℕ := 0

/-- Index of `mp_hands.HandLandmark.THUMB_TIP`. -/
def THUMB_TIP : ℕ := 4

/-- Index of `mp_hands.HandLandmark.INDEX_FINGER_PIP`. -/
def INDEX_FINGER_PIP : ℕ := 6

/-- Index of `mp_hands.HandLandmark.INDEX_FINGER_TIP`. -/
def INDEX_FINGER_TIP : ℕ := 8

/-- Index of `mp_hands.HandLandmark.MIDDLE_FINGER_PIP`. -/
def MIDDLE_FINGER_PIP : ℕ := 10

/-- Index of `mp_hands.HandLandmark.MIDDLE_FINGER_TIP`. -/
def MIDDLE_FINGER_TIP : ℕ := 12

/-- Index of `mp_hands.HandLandmark.RING_FINGER_PIP`. -/
def RING_FINGER_PIP : ℕ := 14

/-- Index of `mp_hands.HandLandmark.RING_FINGER_TIP`. -/
def RING_FINGER_TIP : ℕ := 16

/-- Index of `mp_hands.HandLandmark.PINKY_PIP`. -/
def PINKY_PIP : ℕ := 18

/-- Index of `mp_hands.HandLandmark.PINKY_TIP`. -/
def PINKY_TIP : ℕ := 20

/-- Embedding of `GestureRecognizer.is_index_finger_up`
(src/gesture_recognizer.py, lines 39-73): index tip above its PIP and the
middle, ring and pinky tips below their PIPs.  The thumb landmarks are not
read. -/
def is_index_finger_up (hand : Hand) : Bool :=
  let index_tip := landmark hand INDEX_FINGER_TIP
  let index_pip := landmark hand INDEX_FINGER_PIP
  let middle_tip := landmark hand MIDDLE_FINGER_TIP
  let middle_pip := landmark hand MIDDLE_FINGER_PIP
  let ring_tip := landmark hand RING_FINGER_TIP
  let ring_pip := landmark hand RING_FINGER_PIP
  let pinky_tip := landmark hand PINKY_TIP
  let pinky_pip := landmark hand PINKY_PIP
  decide (index_tip.y < index_pip.y) && decide (middle_tip.y > middle_pip.y) &&
    decide (ring_tip.y > ring_pip.y) && decide (pinky_tip.y > pinky_pip.y)

/-- The `finger_tips` list of `GestureRecognizer.is_all_fingers_up`. -/
def finger_tips : List ℕ := [INDEX_FINGER_TIP, MIDDLE_FINGER_TIP, RING_FINGER_TIP, PINKY_TIP]

/-- The `finger_pips` list of `GestureRecognizer.is_all_fingers_up`. -/
def finger_pips : List ℕ := [INDEX_FINGER_PIP, MIDDLE_FINGER_PIP, RING_FINGER_PIP, PINKY_PIP]

/-- The `fingers_up` counter of `GestureRecognizer.is_all_fingers_up`:
how many of {index, middle, ring, pinky} have tip.y < pip.y. -/
def fingers_up_count (hand : Hand) : ℕ :=
  (finger_tips.zip finger_pips).countP fun tp =>
    decide ((landmark hand tp.1).y < (landmark hand tp.2).y)

/-- Embedding of `GestureRecognizer.is_all_fingers_up`
(src/gesture_recognizer.py, lines 75-108): true when at least 4 of the
four non-thumb fingers are up. -/
def is_all_fingers_up (hand : Hand) : Bool :=
  decide (4 ≤ fingers_up_count hand)

/-- Embedding of `GestureRecognizer.get_index_finger_position`
(src/gesture_recognizer.py, lines 110-125): pixel coordinates of the index
tip, `int(tip.x * w)` and `int(tip.y * h)`. -/
def get_index_finger_position (hand : Hand) (w h : ℤ) : ℤ × ℤ :=
  let index_tip := landmark hand INDEX_FINGER_TIP
  (ratTrunc (index_tip.x * (w : ℚ)), ratTrunc (index_tip.y * (h : ℚ)))

/-- Classified posture for one frame (spec section 3, GestureIntent). -/
inductive Intent
  | Draw
  | Select
  | Idle
deriving DecidableEq

/-- The per-frame intent dispatch order of `PaintApp.process_hand` /
`PaintApp.process_frame` (src/paint_app.py): `is_index_finger_up` is checked
first, then `is_all_fingers_up`, otherwise the frame is idle. -/
def classify_intent (hand : Hand) : Intent :=
  if is_index_finger_up hand then Intent.Draw
  else if is_all_fingers_up hand then Intent.Select
  else Intent.Idle

/-- C6: for every landmark snapshot with index tip.y < index PIP.y and
middle, ring and pinky tips.y above their PIPs.y, `is_index_finger_up`
holds and the classification is Draw.  The statement quantifies over the
whole snapshot, so it holds for every possible thumb position: the thumb
landmarks are never evaluated. -/
theorem draw_intent_ignores_thumb (hand : Hand)
    (hidx : (landmark hand INDEX_FINGER_TIP).y < (landmark hand INDEX_FINGER_PIP).y)
    (hmid : (landmark hand MIDDLE_FINGER_TIP).y > (landmark hand MIDDLE_FINGER_PIP).y)
    (hring : (landmark hand RING_FINGER_TIP).y > (landmark hand RING_FINGER_PIP).y)
    (hpinky : (landmark hand PINKY_TIP).y > (landmark hand PINKY_PIP).y) :
    is_index_finger_up hand = true ∧ classify_intent hand = Intent.Draw := by
  have h1 : is_index_finger_up hand = true := by
    simp [is_index_finger_up, hidx, hmid, hring, hpinky]
  exact ⟨h1, by simp [classify_intent, h1]⟩

/-- Concrete landmark snapshot in Draw posture whose thumb (index 4) is
placed at an extreme position. -/
def hand_draw_example : Hand :=
  [⟨0, 0, 0⟩, ⟨0, 0, 0⟩, ⟨0, 0, 0⟩, ⟨0, 0, 0⟩, ⟨9, 9, 9⟩,
   ⟨0, 0, 0⟩, ⟨0, 2, 0⟩, ⟨0, 0, 0⟩, ⟨0, 1, 0⟩,
   ⟨0, 0, 0⟩, ⟨0, 2, 0⟩, ⟨0, 0, 0⟩, ⟨0, 3, 0⟩,
   ⟨0, 0, 0⟩, ⟨0, 2, 0⟩, ⟨0, 0, 0⟩, ⟨0, 3, 0⟩,
   ⟨0, 0, 0⟩, ⟨0, 2, 0⟩, ⟨0, 0, 0⟩, ⟨0, 3, 0⟩]

theorem draw_intent_ignores_thumb_witness :
    is_index_finger_up hand_draw_example = true ∧
      classify_intent hand_draw_example = Intent.Draw :=
  draw_intent_ignores_thumb hand_draw_example
    (by norm_num [hand_draw_example, landmark, INDEX_FINGER_TIP, INDEX_FINGER_PIP])
    (by norm_num [hand_draw_example, landmark, MIDDLE_FINGER_TIP, MIDDLE_FINGER_PIP])
    (by norm_num [hand_draw_example, landmark, RING_FINGER_TIP, RING_FINGER_PIP])
    (by norm_num [hand_draw_example, landmark, PINKY_TIP, PINKY_PIP])

/-- C7: the Select predicate holds exactly when at least 4 of
{index, middle, ring, pinky} have tip.y < pip.y; a snapshot with exactly
4 of them up classifies as Select, and one with exactly 3 up never does. -/
theorem select_threshold (hand : Hand) :
    (classify_intent hand = Intent.Select ↔ 4 ≤ fingers_up_count hand) ∧
    (fingers_up_count hand = 4 → classify_intent hand = Intent.Select) ∧
    (fingers_up_count hand = 3 → classify_intent hand ≠ Intent.Select) := by
  have hiff : is_all_fingers_up hand = true ↔ 4 ≤ fingers_up_count hand := by
    simp only [is_all_fingers_up, decide_eq_true_eq]
  have hselect : 4 ≤ fingers_up_count hand → classify_intent hand = Intent.Select := by
    intro hcount
    have hlen : (finger_tips.zip finger_pips).length = 4 := by
      simp [finger_tips, finger_pips]
    have hle : fingers_up_count hand ≤ 4 := by
      unfold fingers_up_count
      simpa [hlen] using List.countP_le_length
        (fun tp => decide ((landmark hand tp.1).y < (landmark hand tp.2).y))
        (l := finger_tips.zip finger_pips)
    have heq : fingers_up_count hand = 4 := by omega
    have hall : ∀ tp ∈ finger_tips.zip finger_pips,
        (decide ((landmark hand tp.1).y < (landmark hand tp.2).y)) = true := by
      apply List.countP_eq_length.mp
      rw [hlen]
      exact heq
    have hmem : (MIDDLE_FINGER_TIP, MIDDLE_FINGER_PIP) ∈ finger_tips.zip finger_pips := by
      simp [finger_tips, finger_pips]
    have hmid : (landmark hand MIDDLE_FINGER_TIP).y < (landmark hand MIDDLE_FINGER_PIP).y := by
      simpa using hall _ hmem
    have hidx : is_index_finger_up hand = false := by
      have hB : decide ((landmark hand MIDDLE_FINGER_TIP).y >
          (landmark hand MIDDLE_FINGER_PIP).y) = false :=
        decide_eq_false (lt_asymm hmid)
      simp only [is_index_finger_up]
      rw [hB]
      simp
    have hallb : is_all_fingers_up hand = true := hiff.mpr hcount
    simp [classify_intent, hidx, hallb]
  have hforward : classify_intent hand = Intent.Select → 4 ≤ fingers_up_count hand := by
    intro hsel
    by_cases hidx : is_index_finger_up hand = true
    · simp [classify_intent, hidx] at hsel
    · by_cases hall : is_all_fingers_up hand = true
      · exact hiff.mp hall
      · simp [classify_intent, hidx, hall] at hsel
  refine ⟨⟨hforward, hselect⟩, fun h4 => hselect (by omega), fun h3 hsel => ?_⟩
  have := hforward hsel
  omega

/-- Concrete landmark snapshot with all four non-thumb fingers up. -/
def hand_select_example : Hand :=
  [⟨0, 0, 0⟩, ⟨0, 0, 0⟩, ⟨0, 0, 0⟩, ⟨0, 0, 0⟩, ⟨0, 0, 0⟩,
   ⟨0, 0, 0⟩, ⟨0, 2, 0⟩, ⟨0, 0, 0⟩, ⟨0, 1, 0⟩,
   ⟨0, 0, 0⟩, ⟨0, 2, 0⟩, ⟨0, 0, 0⟩, ⟨0, 1, 0⟩,
   ⟨0, 0, 0⟩, ⟨0, 2, 0⟩, ⟨0, 0, 0⟩, ⟨0, 1, 0⟩,
   ⟨0, 0, 0⟩, ⟨0, 2, 0⟩, ⟨0, 0, 0⟩, ⟨0, 1, 0⟩]

/-- Concrete landmark snapshot with exactly three non-thumb fingers up
(the pinky tip is below its PIP). -/
def hand_three_up_example : Hand :=
  [⟨0, 0, 0⟩, ⟨0, 0, 0⟩, ⟨0, 0, 0⟩, ⟨0, 0, 0⟩, ⟨0, 0, 0⟩,
   ⟨0, 0, 0⟩, ⟨0, 2, 0⟩, ⟨0, 0, 0⟩, ⟨0, 1, 0⟩,
   ⟨0, 0, 0⟩, ⟨0, 2, 0⟩, ⟨0, 0, 0⟩, ⟨0, 1, 0⟩,
   ⟨0, 0, 0⟩, ⟨0, 2, 0⟩, ⟨0, 0, 0⟩, ⟨0, 1, 0⟩,
   ⟨0, 0, 0⟩, ⟨0, 2, 0⟩, ⟨0, 0, 0⟩, ⟨0, 3, 0⟩]

theorem select_threshold_witness :
    classify_intent hand_select_example = Intent.Select ∧
      classify_intent hand_three_up_example ≠ Intent.Select :=
  ⟨(select_threshold hand_select_example).2.1
      (by norm_num [fingers_up_count, finger_tips, finger_pips, landmark,
        hand_select_example, List.countP, List.countP.go,
        INDEX_FINGER_TIP, INDEX_FINGER_PIP, MIDDLE_FINGER_TIP, MIDDLE_FINGER_PIP,
        RING_FINGER_TIP, RING_FINGER_PIP, PINKY_TIP, PINKY_PIP]),
    (select_threshold hand_three_up_example).2.2
      (by norm_num [fingers_up_count, finger_tips, finger_pips, landmark,
        hand_three_up_example, List.countP, List.countP.go,
        INDEX_FINGER_TIP, INDEX_FINGER_PIP, MIDDLE_FINGER_TIP, MIDDLE_FINGER_PIP,
        RING_FINGER_TIP, RING_FINGER_PIP, PINKY_TIP, PINKY_PIP])⟩

/-- Pixel color in BGR byte order, as the source's Python tuples. -/
abbrev Color := ℤ × ℤ × ℤ

/-- Raster contents, represented as the exact sequence of external OpenCV
primitives applied to a uniform background fill.  `uniform w h c` is
`np.ones((h, w, 3), dtype=np.uint8) * np.array(c)`; `line`, `circle` and
`scaled` record one call to `cv2.line`, `cv2.circle` and `cv2.resize`
respectively.  Equal `Img` terms denote pixel-for-pixel identical rasters:
the same primitives applied to the same base yield the same pixels. -/
inductive Img
  | uniform (width height : ℕ) (c : Color)
  | line (base : Img) (p q : ℤ × ℤ) (c : Color) (thickness : ℤ)
  | circle (base : Img) (center : ℤ × ℤ) (radius : ℤ) (c : Color)
  | scaled (base : Img) (width height : ℕ)
deriving DecidableEq

/-- State of `Canvas` (src/canvas.py): raster dimensions, background color,
the raster itself, the previous pen position (`prev_x`, `prev_y`) and the
5-slot smoothing deque `position_buffer`. -/
structure Canvas where
  width : ℕ
  height : ℕ
  bg_color : Color
  canvas : Img
  prev_x : Option ℤ
  prev_y : Option ℤ
  position_buffer : List (ℤ × ℤ)
deriving DecidableEq

/-- Embedding of `Canvas.__init__` (src/canvas.py, lines 12-29). -/
def Canvas.init (width height : ℕ) (bg_color : Color) : Canvas :=
  { width := width
    height := height
    bg_color := bg_color
    canvas := Img.uniform width height bg_color
    prev_x := none
    prev_y := none
    position_buffer := [] }

/-- Appending to `collections.deque(maxlen=5)`: the new element is added on
the right and, if the deque would exceed 5 entries, the oldest entries are
dropped from the left. -/
def push_buffer (buffer : List (ℤ × ℤ)) (p : ℤ × ℤ) : List (ℤ × ℤ) :=
  let b := buffer ++ [p]
  if 5 < b.length then b.drop (b.length - 5) else b

/-- Embedding of `Canvas.draw_line` (src/canvas.py, lines 31-60): append the
new position to the buffer, average the buffered positions (`int(sum/len)`,
exact rational division truncated as Python `int` does), then either draw a
line from the previous position to the smoothed position, or draw a dot of
radius `thickness // 2` when there is no previous position. -/
def Canvas.draw_line (c : Canvas) (x y : ℤ) (color : Color) (thickness : ℤ) : Canvas :=
  let buffer := push_buffer c.position_buffer (x, y)
  let smoothed : ℤ × ℤ :=
    if 0 < buffer.length then
      (ratTrunc (((buffer.map Prod.fst).sum : ℚ) / (buffer.length : ℚ)),
       ratTrunc (((buffer.map Prod.snd).sum : ℚ) / (buffer.length : ℚ)))
    else (x, y)
  match c.prev_x, c.prev_y with
  | some px, some py =>
      { c with canvas := Img.line c.canvas (px, py) smoothed color thickness,
               prev_x := some smoothed.1, prev_y := some smoothed.2,
               position_buffer := buffer }
  | _, _ =>
      { c with canvas := Img.circle c.canvas smoothed (thickness.fdiv 2) color,
               prev_x := some smoothed.1, prev_y := some smoothed.2,
               position_buffer := buffer }

/-- Embedding of `Canvas.reset_position` (src/canvas.py, lines 62-65). -/
def Canvas.reset_position (c : Canvas) : Canvas :=
  { c with prev_x := none, prev_y := none, position_buffer := [] }

/-- Embedding of `Canvas.clear` (src/canvas.py, lines 67-70): repaint the
raster with the background color, then reset the pen position. -/
def Canvas.clear (c : Canvas) : Canvas :=
  Canvas.reset_position { c with canvas := Img.uniform c.width c.height c.bg_color }

/-- Exception text raised by `cv2.resize` when the destination size has a
zero component and no scale factors are supplied. -/
def cv2ResizeError : String :=
  "cv2.error: (-215:Assertion failed) !dsize.empty() in function resize"

/-- Embedding of `Canvas.resize` (src/canvas.py, lines 72-83): when the
requested dimensions differ from the current ones, the raster is handed to
`cv2.resize`, which raises when either requested dimension is zero;
otherwise the method does nothing.  There is no zero-dimension guard in the
source. -/
def Canvas.resize (c : Canvas) (width height : ℕ) : Except String Canvas :=
  if (c.height, c.width) ≠ (height, width) then
    if width = 0 ∨ height = 0 then
      Except.error cv2ResizeError
    else
      Except.ok { c with canvas := Img.scaled c.canvas width height,
                         width := width, height := height }
  else
    Except.ok c

/-- C9: `clear` is idempotent (the twice-cleared canvas is equal, raster and
all, to the once-cleared canvas), a freshly constructed canvas of the same
dimensions and background color is identical to a cleared canvas, and
`clear` resets the pen state (prev position cleared, buffer emptied). -/
theorem clear_idempotent_and_matches_init (c : Canvas) :
    Canvas.clear (Canvas.clear c) = Canvas.clear c ∧
    Canvas.init c.width c.height c.bg_color = Canvas.clear c ∧
    (Canvas.clear c).prev_x = none ∧ (Canvas.clear c).prev_y = none ∧
    (Canvas.clear c).position_buffer = [] := by
  simp [Canvas.clear, Canvas.reset_position, Canvas.init]

/-- C3 counterexample: resizing a normally constructed 640 by 480 canvas to
width 0 is not rejected gracefully; the embedded `cv2.resize` call raises
`cv2.error`, so the claimed behavior (no raise, configuration-error signal)
does not hold. -/
theorem resize_zero_counterexample :
    Canvas.resize (Canvas.init 640 480 (255, 255, 255)) 0 100 =
      Except.error cv2ResizeError := by
  rfl

/-- C3 (amended): a resize request with a zero width or height, for new
dimensions differing from the current ones, always raises (propagates
`cv2.error` to the caller) instead of being rejected with a configuration
error; the Canvas object itself is left unmodified only because the
exception interrupts the method before any field assignment. -/
theorem resize_zero_dimension_raises (c : Canvas) (w h : ℕ)
    (hz : w = 0 ∨ h = 0) (hne : (c.height, c.width) ≠ (h, w)) :
    Canvas.resize c w h = Except.error cv2ResizeError := by
  unfold Canvas.resize
  rw [if_pos hne, if_pos hz]

theorem resize_zero_dimension_raises_witness :
    Canvas.resize (Canvas.init 640 480 (255, 255, 255)) 100 0 =
      Except.error cv2ResizeError :=
  resize_zero_dimension_raises (Canvas.init 640 480 (255, 255, 255)) 100 0
    (Or.inr rfl) (by simp [Canvas.init])

/-- The fixed 8-entry palette `ColorPalette.COLORS` (src/ui.py, lines 7-19),
in BGR encoding. -/
def ColorPalette.COLORS : List (Color × String) :=
  [((0, 0, 255), "Red"),
   ((0, 255, 0), "Green"),
   ((255, 0, 0), "Blue"),
   ((0, 255, 255), "Yellow"),
   ((255, 0, 255), "Magenta"),
   ((255, 255, 0), "Cyan"),
   ((0, 0, 0), "Black"),
   ((255, 255, 255), "White")]

/-- State of `UI` (src/ui.py): palette band height, the palette, minimum
button metrics, and the button bounds stored by `draw_buttons` once the UI
has been rendered at least once (`None` models the missing attribute before
the first render, when the hit test falls back to fixed bounds). -/
structure UI where
  palette_height : ℤ
  colors : List (Color × String)
  min_button_width : ℤ
  min_button_spacing : ℤ
  eraser_button_bounds : Option (ℤ × ℤ × ℤ × ℤ)
  clear_button_bounds : Option (ℤ × ℤ × ℤ × ℤ)
deriving DecidableEq

/-- Embedding of `UI.__init__` (src/ui.py, lines 25-37). -/
def UI.init (palette_height : ℤ := 80) : UI :=
  { palette_height := palette_height
    colors := ColorPalette.COLORS
    min_button_width := 60
    min_button_spacing := 5
    eraser_button_bounds := none
    clear_button_bounds := none }

/-- Embedding of `UI.get_color_from_position` (src/ui.py, lines 273-290):
inside the palette band, the cell index is `x // (frame_width // 8)`, and
the palette entry is returned when the index is in range. -/
def UI.get_color_from_position (ui : UI) (x y frame_width : ℤ) : Option (Color × String) :=
  if y < ui.palette_height then
    let color_box_width := frame_width.fdiv (ui.colors.length : ℤ)
    let color_index := x.fdiv color_box_width
    if 0 ≤ color_index ∧ color_index < (ui.colors.length : ℤ) then
      some (ui.colors.getD color_index.toNat ((0, 0, 0), ""))
    else
      none
  else
    none

/-- Embedding of `UI.is_eraser_button_clicked` (src/ui.py, lines 292-308),
including the fixed fallback bounds used before the first render. -/
def UI.is_eraser_button_clicked (ui : UI) (x y frame_width : ℤ) : Bool :=
  match ui.eraser_button_bounds with
  | some (x1, y1, x2, y2) =>
      decide (x1 < x) && decide (x < x2) && decide (y1 < y) && decide (y < y2)
  | none =>
      decide (frame_width - 210 < x) && decide (x < frame_width - 110) &&
        decide (10 < y) && decide (y < 70)

/-- Embedding of `UI.is_clear_button_clicked` (src/ui.py, lines 310-326),
including the fixed fallback bounds used before the first render. -/
def UI.is_clear_button_clicked (ui : UI) (x y frame_width : ℤ) : Bool :=
  match ui.clear_button_bounds with
  | some (x1, y1, x2, y2) =>
      decide (x1 < x) && decide (x < x2) && decide (y1 < y) && decide (y < y2)
  | none =>
      decide (frame_width - 100 < x) && decide (x < frame_width - 10) &&
        decide (10 < y) && decide (y < 70)

/-- State of `PaintApp` (src/paint_app.py, lines 13-39): drawing settings,
depth-gate threshold, cursor feedback, and the owned canvas and UI. -/
structure PaintApp where
  current_color : Color
  brush_size : ℤ
  eraser_mode : Bool
  show_webcam : Bool
  depth_threshold : ℚ
  cursor_x : Option ℤ
  cursor_y : Option ℤ
  is_close_enough : Bool
  canvas : Canvas
  ui : UI
deriving DecidableEq

/-- Embedding of `PaintApp.__init__` (src/paint_app.py, lines 13-39). -/
def PaintApp.init : PaintApp :=
  { current_color := (0, 0, 255)
    brush_size := 3
    eraser_mode := false
    show_webcam := false
    depth_threshold := -0.05
    cursor_x := none
    cursor_y := none
    is_close_enough := false
    canvas := Canvas.init 1000 700 (255, 255, 255)
    ui := UI.init }

/-- Embedding of `PaintApp.process_drawing_gesture` (src/paint_app.py,
lines 41-54): ink is committed only strictly below the palette band; eraser
mode overrides color (white) and thickness (3x). -/
def PaintApp.process_drawing_gesture (app : PaintApp) (x y frame_height frame_width : ℤ) :
    PaintApp :=
  if app.ui.palette_height < y then
    let color := if app.eraser_mode then ((255, 255, 255) : Color) else app.current_color
    let thickness := if app.eraser_mode then app.brush_size * 3 else app.brush_size
    { app with canvas := app.canvas.draw_line x y color thickness }
  else
    app

/-- Embedding of `PaintApp.process_selection_gesture` (src/paint_app.py,
lines 56-81): palette hit sets the color and exits eraser mode; otherwise
the eraser and clear buttons are tested in order. -/
def PaintApp.process_selection_gesture (app : PaintApp) (x y frame_height frame_width : ℤ) :
    PaintApp :=
  match app.ui.get_color_from_position x y frame_width with
  | some color_selection =>
      { app with current_color := color_selection.1, eraser_mode := false }
  | none =>
      if app.ui.is_eraser_button_clicked x y frame_width then
        { app with eraser_mode := !app.eraser_mode }
      else if app.ui.is_clear_button_clicked x y frame_width then
        { app with canvas := app.canvas.clear }
      else
        app

/-- Floor division is determined by the enclosing multiples of a positive
divisor. -/
theorem fdiv_eq_of_bounds (x c i : ℤ) (hc : 0 < c) (h1 : i * c ≤ x)
    (h2 : x < (i + 1) * c) : x.fdiv c = i := by
  rw [Int.fdiv_eq_ediv _ (le_of_lt hc)]
  have ha : i ≤ x / c := (Int.le_ediv_iff_mul_le hc).mpr h1
  have hb : x / c < i + 1 := (Int.ediv_lt_iff_lt_mul hc).mpr h2
  omega

/-- C4: a Select-intent point inside palette cell i (y within the palette
band, x within the i-th of the eight equal cells of width
frame_width // 8) sets the active color to palette entry i and exits
eraser mode, regardless of the prior eraser state. -/
theorem select_palette_exits_eraser (app : PaintApp) (x y frame_height frame_width : ℤ)
    (i : ℕ) (hcolors : app.ui.colors = ColorPalette.COLORS) (hi : i < 8)
    (hcw : 0 < frame_width.fdiv 8)
    (hlo : (i : ℤ) * frame_width.fdiv 8 ≤ x)
    (hhi : x < ((i : ℤ) + 1) * frame_width.fdiv 8)
    (hy : y < app.ui.palette_height) :
    (app.process_selection_gesture x y frame_height frame_width).current_color =
        (ColorPalette.COLORS.getD i ((0, 0, 0), "")).1 ∧
    (app.process_selection_gesture x y frame_height frame_width).eraser_mode = false := by
  have hlen : ((ColorPalette.COLORS.length : ℕ) : ℤ) = 8 := by rfl
  have hidx : x.fdiv (frame_width.fdiv 8) = (i : ℤ) :=
    fdiv_eq_of_bounds x (frame_width.fdiv 8) (i : ℤ) hcw hlo hhi
  have hguard8 : 0 ≤ (i : ℤ) ∧ (i : ℤ) < (8 : ℤ) := by
    constructor
    · exact Int.natCast_nonneg i
    · exact_mod_cast hi
  have hhit : app.ui.get_color_from_position x y frame_width =
      some (ColorPalette.COLORS.getD i ((0, 0, 0), "")) := by
    unfold UI.get_color_from_position
    rw [hcolors, if_pos hy]
    simp only [hlen, hidx]
    rw [if_pos hguard8]
    simp
  unfold PaintApp.process_selection_gesture
  rw [hhit]
  exact ⟨rfl, rfl⟩

theorem select_palette_exits_eraser_witness :
    ({ PaintApp.init with eraser_mode := true }.process_selection_gesture
        300 40 700 1000).current_color = (255, 0, 0) ∧
    ({ PaintApp.init with eraser_mode := true }.process_selection_gesture
        300 40 700 1000).eraser_mode = false := by
  have h := select_palette_exits_eraser { PaintApp.init with eraser_mode := true }
    300 40 700 1000 2 (by simp [PaintApp.init, UI.init]) (by norm_num)
    (by decide) (by decide) (by decide) (by simp [PaintApp.init, UI.init])
  simpa [ColorPalette.COLORS] using h

/-- C10: a Draw-intent point whose y coordinate is at or above the palette
band boundary (y less than or equal to palette_height) leaves the whole
application state untouched: no ink is committed, the pen position is kept
and the smoothing buffer is unchanged. -/
theorem drawing_in_palette_band_is_noop (app : PaintApp) (x y frame_height frame_width : ℤ)
    (hy : y ≤ app.ui.palette_height) :
    app.process_drawing_gesture x y frame_height frame_width = app := by
  unfold PaintApp.process_drawing_gesture
  rw [if_neg (not_lt.mpr hy)]

theorem drawing_in_palette_band_is_noop_witness :
    PaintApp.init.process_drawing_gesture 500 80 700 1000 = PaintApp.init :=
  drawing_in_palette_band_is_noop PaintApp.init 500 80 700 1000
    (by simp [PaintApp.init, UI.init])

/-- State of `OutlierGuard` (src/filters.py, lines 120-136).  The source
stores `prev_velocity = math.sqrt(dx*dx + dy*dy)` of the last accepted
movement; square roots are not computable over ℚ, so the embedding stores
the square of that velocity (`prev_velocity_sq`) and performs every
comparison through its exact real-number characterization (`sqrt_gt`,
`sqrt_lt` below, justified against `Real.sqrt` by the lemmas that follow). -/
structure OutlierGuard where
  max_jump : ℚ
  dead_zone : ℚ
  prev_pos : Option (ℚ × ℚ)
  prev_velocity_sq : ℚ
deriving DecidableEq

/-- Exact characterization of `Real.sqrt s > t` for a non-negative radicand
represented by its square `s`. -/
def sqrt_gt (s t : ℚ) : Bool :=
  if t < 0 then true else decide (t * t < s)

/-- Exact characterization of `Real.sqrt s < t` for a non-negative radicand
represented by its square `s`. -/
def sqrt_lt (s t : ℚ) : Bool :=
  if t ≤ 0 then false else decide (s < t * t)

theorem sqrt_gt_correct (s t : ℚ) :
    sqrt_gt s t = true ↔ (t : ℝ) < Real.sqrt (s : ℝ) := by
  unfold sqrt_gt
  split
  · rename_i ht
    have ht' : (t : ℝ) < 0 := by exact_mod_cast ht
    simp only [true_iff]
    exact lt_of_lt_of_le ht' (Real.sqrt_nonneg _)
  · rename_i ht
    have ht' : (0 : ℝ) ≤ (t : ℝ) := by
      have := not_lt.mp ht
      exact_mod_cast this
    rw [decide_eq_true_eq, Real.lt_sqrt ht']
    constructor
    · intro h
      have h' : ((t * t : ℚ) : ℝ) < (s : ℝ) := by exact_mod_cast h
      calc (t : ℝ) ^ 2 = ((t * t : ℚ) : ℝ) := by push_cast; ring
        _ < (s : ℝ) := h'
    · intro h
      have h' : ((t * t : ℚ) : ℝ) < (s : ℝ) := by
        calc ((t * t : ℚ) : ℝ) = (t : ℝ) ^ 2 := by push_cast; ring
          _ < (s : ℝ) := h
      exact_mod_cast h'

theorem sqrt_lt_correct (s t : ℚ) :
    sqrt_lt s t = true ↔ Real.sqrt (s : ℝ) < (t : ℝ) := by
  unfold sqrt_lt
  split
  · rename_i ht
    have ht' : (t : ℝ) ≤ 0 := by exact_mod_cast ht
    constructor
    · intro h
      exact (Bool.false_ne_true h).elim
    · intro h
      exact absurd h (not_lt.mpr (le_trans ht' (Real.sqrt_nonneg _)))
  · rename_i ht
    have ht' : (0 : ℝ) < (t : ℝ) := by
      have := not_le.mp ht
      exact_mod_cast this
    rw [decide_eq_true_eq, Real.sqrt_lt' ht']
    constructor
    · intro h
      calc (s : ℝ) < ((t * t : ℚ) : ℝ) := by exact_mod_cast h
        _ = (t : ℝ) ^ 2 := by push_cast; ring
    · intro h
      have h' : (s : ℝ) < ((t * t : ℚ) : ℝ) := by
        calc (s : ℝ) < (t : ℝ) ^ 2 := h
          _ = ((t * t : ℚ) : ℝ) := by push_cast; ring
      exact_mod_cast h'

/-- Embedding of `OutlierGuard.filter` (src/filters.py, lines 138-172):
first sample seeds the previous position; a jump larger than `max_jump`
while the previous velocity is below `max_jump * 0.5` is rejected (previous
position returned, marked invalid, state untouched); a move inside the dead
zone returns the previous position marked valid without touching state;
otherwise the sample is accepted and the state advances. -/
def OutlierGuard.filter (g : OutlierGuard) (x y : ℚ) : (ℚ × ℚ) × Bool × OutlierGuard :=
  match g.prev_pos with
  | none => ((x, y), true, { g with prev_pos := some (x, y) })
  | some (px, py) =>
    let dx := x - px
    let dy := y - py
    let distance_sq := dx * dx + dy * dy
    if sqrt_gt distance_sq g.max_jump && sqrt_lt g.prev_velocity_sq (g.max_jump * 0.5) then
      ((px, py), false, g)
    else if sqrt_lt distance_sq g.dead_zone then
      ((px, py), true, g)
    else
      ((x, y), true, { g with prev_velocity_sq := distance_sq, prev_pos := some (x, y) })

/-- Embedding of `OutlierGuard.reset` (src/filters.py, lines 174-177). -/
def OutlierGuard.reset (g : OutlierGuard) : OutlierGuard :=
  { g with prev_pos := none, prev_velocity_sq := 0 }

/-- C5 counterexample: a guard constructed with `max_jump = 0` and an
established previous position (0,0) with previous velocity 0 receives a
sample at distance 5 > max_jump, yet the sample is accepted: the returned
position is the outlier itself, it is marked valid, and the remembered
position and velocity both advance — the rejection test
`prev_velocity < max_jump * 0.5` can never hold when `max_jump = 0`. -/
theorem outlier_rejection_counterexample :
    sqrt_gt ((5 - 0) * ((5 : ℚ) - 0) + (0 - 0) * ((0 : ℚ) - 0))
        (0 : ℚ) = true ∧
    OutlierGuard.filter
        { max_jump := 0, dead_zone := 0, prev_pos := some (0, 0), prev_velocity_sq := 0 } 5 0 =
      ((5, 0), true,
        { max_jump := 0, dead_zone := 0, prev_pos := some (5, 0), prev_velocity_sq := 25 }) := by
  constructor
  · norm_num [sqrt_gt]
  · norm_num [OutlierGuard.filter, sqrt_gt, sqrt_lt]

/-- C5 (amended): for a guard with positive `max_jump`, an established
previous position and previous velocity 0, a single sample at Euclidean
distance greater than `max_jump` is rejected: the previous position is
returned, the sample is marked invalid, and the guard state is unchanged.
(The positivity of `max_jump` is forced by the counterexample: with
`max_jump = 0` the rejection test `prev_velocity < max_jump * 0.5` fails.) -/
theorem outlier_rejected (mj dz px py x y : ℚ) (hmj : 0 < mj)
    (hfar : sqrt_gt ((x - px) * (x - px) + (y - py) * (y - py)) mj = true) :
    OutlierGuard.filter
        { max_jump := mj, dead_zone := dz, prev_pos := some (px, py), prev_velocity_sq := 0 } x y =
      ((px, py), false,
        { max_jump := mj, dead_zone := dz, prev_pos := some (px, py), prev_velocity_sq := 0 }) := by
  have hvel : sqrt_lt (0 : ℚ) (mj * 0.5) = true := by
    unfold sqrt_lt
    have h05 : 0 < mj * 0.5 := by linarith
    rw [if_neg (not_le.mpr h05)]
    exact decide_eq_true (mul_pos h05 h05)
  simp only [OutlierGuard.filter]
  rw [hfar, hvel]
  simp

theorem outlier_rejected_witness :
    OutlierGuard.filter
        { max_jump := 80, dead_zone := 2, prev_pos := some (0, 0), prev_velocity_sq := 0 } 100 0 =
      ((0, 0), false,
        { max_jump := 80, dead_zone := 2, prev_pos := some (0, 0), prev_velocity_sq := 0 }) :=
  outlier_rejected 80 2 0 0 100 0 (by norm_num) (by norm_num [sqrt_gt])

/-- C8 counterexample: a guard with `dead_zone = 200 > max_jump = 80`, an
established previous position (0,0) and previous velocity 0 receives a
sample at distance 100 < dead_zone; the output position is the previous
position, but it is marked invalid (the outlier rejection fires first), not
valid as the claim states. -/
theorem dead_zone_counterexample :
    sqrt_lt ((100 - 0) * ((100 : ℚ) - 0) + (0 - 0) * ((0 : ℚ) - 0))
        (200 : ℚ) = true ∧
    OutlierGuard.filter
        { max_jump := 80, dead_zone := 200, prev_pos := some (0, 0), prev_velocity_sq := 0 } 100 0 =
      ((0, 0), false,
        { max_jump := 80, dead_zone := 200, prev_pos := some (0, 0), prev_velocity_sq := 0 }) := by
  constructor
  · norm_num [sqrt_lt]
  · norm_num [OutlierGuard.filter, sqrt_gt, sqrt_lt]

/-- C8 (amended): a sample at distance less than `dead_zone` from the
established previous position always returns the previous position with the
guard state unchanged (so two consecutive samples differing by less than the
dead zone produce identical output positions and no stroke motion), and it
is marked valid provided the outlier rejection does not fire first — which
is guaranteed whenever `dead_zone ≤ max_jump`, as in the default
configuration. -/
theorem dead_zone_absorbs (g : OutlierGuard) (px py x y : ℚ)
    (hprev : g.prev_pos = some (px, py))
    (hnear : sqrt_lt ((x - px) * (x - px) + (y - py) * (y - py)) g.dead_zone = true) :
    (g.filter x y).1 = (px, py) ∧ (g.filter x y).2.2 = g ∧
    ((sqrt_gt ((x - px) * (x - px) + (y - py) * (y - py)) g.max_jump &&
        sqrt_lt g.prev_velocity_sq (g.max_jump * 0.5)) = false →
      g.filter x y = ((px, py), true, g)) := by
  simp only [OutlierGuard.filter, hprev]
  by_cases hout : (sqrt_gt ((x - px) * (x - px) + (y - py) * (y - py)) g.max_jump &&
      sqrt_lt g.prev_velocity_sq (g.max_jump * 0.5)) = true
  · rw [if_pos hout]
    refine ⟨rfl, rfl, fun hfalse => ?_⟩
    rw [hout] at hfalse
    exact absurd hfalse (by simp)
  · have hout' := Bool.eq_false_iff.mpr (fun h => hout h)
    rw [if_neg (by simp [hout']), if_pos hnear]
    exact ⟨rfl, rfl, fun _ => rfl⟩

theorem dead_zone_absorbs_witness :
    (OutlierGuard.filter
        { max_jump := 80, dead_zone := 2, prev_pos := some (0, 0), prev_velocity_sq := 0 } 1 0).1 =
      (0, 0) ∧
    OutlierGuard.filter
        { max_jump := 80, dead_zone := 2, prev_pos := some (0, 0), prev_velocity_sq := 0 } 1 0 =
      ((0, 0), true,
        { max_jump := 80, dead_zone := 2, prev_pos := some (0, 0), prev_velocity_sq := 0 }) := by
  have h := dead_zone_absorbs
    { max_jump := 80, dead_zone := 2, prev_pos := some (0, 0), prev_velocity_sq := 0 }
    0 0 1 0 rfl (by norm_num [sqrt_lt])
  exact ⟨h.1, h.2.2 (by norm_num [sqrt_gt, sqrt_lt])⟩

/-- Exception text produced at src/paint_app.py line 218: the class
`GestureRecognizer` (src/gesture_recognizer.py) defines no method named
`is_finger_close_enough`, so the attribute lookup raises. -/
def attributeError : String :=
  "AttributeError: GestureRecognizer object has no attribute is_finger_close_enough"

/-- Modelled from the spec: the depth-gate predicate `is_finger_close_enough`
is invoked at src/paint_app.py line 218 but its definition is missing from
the repository (src/gesture_recognizer.py has no such method).  Spec
section 4.1 describes it: it compares a normalized relative-depth signal,
fingertip z versus a wrist/base reference, against a configurable threshold
to produce a boolean close-enough-to-surface gate
(`PaintApp.depth_threshold` is -0.05, more negative meaning closer). -/
def is_finger_close_enough (hand : Hand) (threshold : ℚ) : Bool :=
  decide ((landmark hand INDEX_FINGER_TIP).z - (landmark hand WRIST).z < threshold)

/-- The fixed-canvas-size step of `PaintApp.process_frame`
(src/paint_app.py, lines 185-189): resize the canvas to 1000 x 700 when its
dimensions differ from that. -/
def PaintApp.ensure_canvas_size (app : PaintApp) : Except String PaintApp :=
  if app.canvas.width ≠ 1000 ∨ app.canvas.height ≠ 700 then
    match app.canvas.resize 1000 700 with
    | Except.ok c => Except.ok { app with canvas := c }
    | Except.error e => Except.error e
  else
    Except.ok app

/-- Coordinate mapping of `PaintApp.process_frame` (src/paint_app.py, lines
208-211): the index-tip pixel position in the w x h video frame, scaled to
the 1000 x 700 canvas by `int(x * canvas_width / w)` and
`int(y * canvas_height / h)`. -/
def canvas_point (hand : Hand) (w h : ℤ) : ℤ × ℤ :=
  let xy := get_index_finger_position hand w h
  (ratTrunc (((xy.1 * 1000 : ℤ) : ℚ) / (w : ℚ)),
   ratTrunc (((xy.2 * 700 : ℤ) : ℚ) / (h : ℚ)))

/-- Embedding of `PaintApp.process_frame` (src/paint_app.py, lines 171-263)
exactly as the source stands.  Input: at most one detected hand
(`max_num_hands=1`) and the video frame dimensions; output: the updated
state, the status string, and the drawing flag.  When a hand is detected,
the source updates the cursor (lines 213-215) and then, at line 218, invokes
`self.gesture_recognizer.is_finger_close_enough(...)` — a method that does
not exist — so the interpreter raises `AttributeError` before any intent
dispatch, ink commit or status computation can happen. -/
def PaintApp.process_frame (app : PaintApp) (hand : Option Hand) (w h : ℤ) :
    Except String (PaintApp × String × Bool) :=
  match app.ensure_canvas_size with
  | Except.error e => Except.error e
  | Except.ok app1 =>
    let app2 := { app1 with is_close_enough := false }
    match hand with
    | none =>
        Except.ok ({ app2 with canvas := app2.canvas.reset_position,
                               cursor_x := none, cursor_y := none },
          "NO HAND DETECTED", false)
    | some _ =>
        Except.error attributeError

/-- Embedding of `PaintApp.process_frame` with the one missing piece,
`is_finger_close_enough`, replaced by its spec model: classify the posture;
on Draw intent gated close enough, commit ink through
`process_drawing_gesture`; on Draw intent with the gate failing, only the
cursor moves; on Select intent, reset the pen and run the selection; else
reset the pen.  Status is then derived exactly as in lines 249-257. -/
def PaintApp.process_frame_modelled (app : PaintApp) (hand : Option Hand) (w h : ℤ) :
    Except String (PaintApp × String × Bool) :=
  match app.ensure_canvas_size with
  | Except.error e => Except.error e
  | Except.ok app1 =>
    let app2 := { app1 with is_close_enough := false }
    match hand with
    | none =>
        Except.ok ({ app2 with canvas := app2.canvas.reset_position,
                               cursor_x := none, cursor_y := none },
          "NO HAND DETECTED", false)
    | some hd =>
        let p := canvas_point hd w h
        let app3 := { app2 with cursor_x := some p.1, cursor_y := some p.2 }
        let close := is_finger_close_enough hd app3.depth_threshold
        let app4 := { app3 with is_close_enough := close }
        let res :=
          if is_index_finger_up hd then
            if close then (app4.process_drawing_gesture p.1 p.2 700 1000, true)
            else (app4, false)
          else if is_all_fingers_up hd then
            let app5 := { app4 with canvas := app4.canvas.reset_position }
            let app6 := app5.process_selection_gesture p.1 p.2 700 1000
            ({ app6 with cursor_x := none, cursor_y := none }, false)
          else
            ({ app4 with canvas := app4.canvas.reset_position }, false)
        let status :=
          if res.2 then "DRAWING"
          else if res.1.is_close_enough then "READY TO DRAW"
          else "MOVE CLOSER TO DRAW"
        Except.ok (res.1, status, res.2)

/-- The fixed-size step never fails: its target 1000 x 700 is non-zero, so
the embedded `cv2.resize` cannot raise, and the resulting canvas always has
dimensions 1000 x 700. -/
theorem ensure_canvas_size_ok (app : PaintApp) :
    ∃ app1, app.ensure_canvas_size = Except.ok app1 ∧
      app1.canvas.width = 1000 ∧ app1.canvas.height = 700 := by
  unfold PaintApp.ensure_canvas_size Canvas.resize
  by_cases hdim : app.canvas.width ≠ 1000 ∨ app.canvas.height ≠ 700
  · rw [if_pos hdim]
    have hne : (app.canvas.height, app.canvas.width) ≠ ((700 : ℕ), (1000 : ℕ)) := by
      intro hEq
      rw [Prod.mk.injEq] at hEq
      rcases hdim with hw | hh
      · exact hw hEq.2
      · exact hh hEq.1
    rw [if_pos hne, if_neg (by norm_num)]
    exact ⟨_, rfl, rfl, rfl⟩
  · rw [if_neg hdim]
    push_neg at hdim
    exact ⟨app, rfl, hdim.1, hdim.2⟩

/-- A canvas already at 1000 x 700 passes the fixed-size step unchanged. -/
theorem ensure_canvas_size_id (app : PaintApp)
    (hw : app.canvas.width = 1000) (hh : app.canvas.height = 700) :
    app.ensure_canvas_size = Except.ok app := by
  unfold PaintApp.ensure_canvas_size
  rw [if_neg]
  push_neg
  exact ⟨hw, hh⟩

/-- C1: the claim fails on the code as a bug in the code.  For every
application state, every detected hand (whatever its posture, Draw
included) and every frame size, `process_frame` raises `AttributeError`:
the depth gate is never evaluated, no ink is ever committed and no status
is emitted, because the method `is_finger_close_enough` that line 218 calls
does not exist on `GestureRecognizer`. -/
theorem process_frame_raises_on_any_hand (app : PaintApp) (hd : Hand) (w h : ℤ) :
    app.process_frame (some hd) w h = Except.error attributeError := by
  obtain ⟨app1, he, -, -⟩ := ensure_canvas_size_ok app
  unfold PaintApp.process_frame
  rw [he]

theorem process_frame_raises_on_any_hand_witness :
    PaintApp.init.process_frame (some hand_draw_example) 640 480 =
      Except.error attributeError :=
  process_frame_raises_on_any_hand PaintApp.init hand_draw_example 640 480

/-- A selection gesture never puts the pen back down: when the pen state is
reset on entry, it is still reset afterwards (the clear action resets it
again), and the canvas dimensions are untouched. -/
theorem process_selection_preserves_reset (app : PaintApp) (x y fh fw : ℤ)
    (hx : app.canvas.prev_x = none) (hy' : app.canvas.prev_y = none)
    (hb : app.canvas.position_buffer = []) :
    (app.process_selection_gesture x y fh fw).canvas.prev_x = none ∧
    (app.process_selection_gesture x y fh fw).canvas.prev_y = none ∧
    (app.process_selection_gesture x y fh fw).canvas.position_buffer = [] ∧
    (app.process_selection_gesture x y fh fw).canvas.width = app.canvas.width ∧
    (app.process_selection_gesture x y fh fw).canvas.height = app.canvas.height := by
  unfold PaintApp.process_selection_gesture
  cases hsel : app.ui.get_color_from_position x y fw with
  | some c => simp [hx, hy', hb]
  | none =>
    by_cases he1 : app.ui.is_eraser_button_clicked x y fw = true
    · simp [he1, hx, hy', hb]
    · by_cases hc1 : app.ui.is_clear_button_clicked x y fw = true
      · simp [he1, hc1, Canvas.clear, Canvas.reset_position]
      · simp [he1, hc1, hx, hy', hb]

/-- Drawing from a freshly reset pen commits a single dot: the smoothing
buffer holds only the new point, whose average is the point itself, and with
no previous position the `cv2.circle` branch is taken. -/
theorem draw_line_from_reset (c : Canvas) (x y : ℤ) (color : Color) (thickness : ℤ)
    (hx : c.prev_x = none) (hb : c.position_buffer = []) :
    c.draw_line x y color thickness =
      { c with canvas := Img.circle c.canvas (x, y) (thickness.fdiv 2) color,
               prev_x := some x, prev_y := some y, position_buffer := [(x, y)] } := by
  unfold Canvas.draw_line push_buffer
  rw [hx, hb]
  norm_num [ratTrunc_intCast]

/-- The modelled per-frame procedure never fails: the only fallible step is
the fixed-size resize, whose target is non-degenerate. -/
theorem process_frame_modelled_ok (app : PaintApp) (hand : Option Hand) (w h : ℤ) :
    ∃ r, app.process_frame_modelled hand w h = Except.ok r := by
  obtain ⟨a1, he, -, -⟩ := ensure_canvas_size_ok app
  unfold PaintApp.process_frame_modelled
  rw [he]
  cases hand with
  | none => exact ⟨_, rfl⟩
  | some hd => exact ⟨_, rfl⟩

/-- C2: pen-lift isolation.  Starting from any state in which a stroke is in
progress (a previous pen position is committed), one frame with no hand or
with a non-Draw posture resets the pen state (previous position cleared,
smoothing buffer emptied), and the next Draw-intent frame that passes the
depth gate and lands below the palette band commits exactly one
`cv2.circle` dot at the new point on top of the post-lift raster — never a
`cv2.line` segment connecting to any point committed before the reset, so
the two strokes are disjoint. -/
theorem pen_lift_isolation
    (app : PaintApp) (px py : ℤ) (hand1 : Option Hand) (w1 h1 : ℤ)
    (hpx : app.canvas.prev_x = some px) (hpy : app.canvas.prev_y = some py)
    (hlift : hand1 = none ∨ ∃ hd1, hand1 = some hd1 ∧ is_index_finger_up hd1 = false)
    (app1 : PaintApp) (st1 : String) (d1 : Bool)
    (hrun1 : app.process_frame_modelled hand1 w1 h1 = Except.ok (app1, st1, d1))
    (hand2 : Hand) (w2 h2 : ℤ)
    (hdraw : is_index_finger_up hand2 = true)
    (hclose : is_finger_close_enough hand2 app1.depth_threshold = true)
    (hbelow : app1.ui.palette_height < (canvas_point hand2 w2 h2).2)
    (app2 : PaintApp) (st2 : String) (d2 : Bool)
    (hrun2 : app1.process_frame_modelled (some hand2) w2 h2 = Except.ok (app2, st2, d2)) :
    app1.canvas.prev_x = none ∧ app1.canvas.prev_y = none ∧
    app1.canvas.position_buffer = [] ∧
    app2.canvas.canvas =
      Img.circle app1.canvas.canvas (canvas_point hand2 w2 h2)
        ((if app1.eraser_mode then app1.brush_size * 3 else app1.brush_size).fdiv 2)
        (if app1.eraser_mode then ((255, 255, 255) : Color) else app1.current_color) ∧
    d2 = true := by
  obtain ⟨a1, he, hw1000, hh700⟩ := ensure_canvas_size_ok app
  unfold PaintApp.process_frame_modelled at hrun1
  rw [he] at hrun1
  have hstate : app1.canvas.prev_x = none ∧ app1.canvas.prev_y = none ∧
      app1.canvas.position_buffer = [] ∧
      app1.canvas.width = 1000 ∧ app1.canvas.height = 700 := by
    rcases hlift with hnone | ⟨hd1, hsome, hidx1⟩
    · subst hnone
      simp only [Except.ok.injEq, Prod.mk.injEq] at hrun1
      obtain ⟨happ1, -, -⟩ := hrun1
      rw [← happ1]
      simp [Canvas.reset_position, hw1000, hh700]
    · subst hsome
      simp only [hidx1, Bool.false_eq_true, if_false] at hrun1
      by_cases hall : is_all_fingers_up hd1 = true
      · simp only [hall, if_true, Except.ok.injEq, Prod.mk.injEq] at hrun1
        obtain ⟨happ1, -, -⟩ := hrun1
        rw [← happ1]
        unfold PaintApp.process_selection_gesture
        dsimp only
        split
        · simp [Canvas.reset_position, hw1000, hh700]
        · split
          · simp [Canvas.reset_position, hw1000, hh700]
          · split
            · simp [Canvas.clear, Canvas.reset_position, hw1000, hh700]
            · simp [Canvas.reset_position, hw1000, hh700]
      · simp only [hall, Bool.false_eq_true, if_false, Except.ok.injEq,
          Prod.mk.injEq] at hrun1
        obtain ⟨happ1, -, -⟩ := hrun1
        rw [← happ1]
        simp [Canvas.reset_position, hw1000, hh700]
  obtain ⟨hp1x, hp1y, hp1b, hp1w, hp1h⟩ := hstate
  unfold PaintApp.process_frame_modelled at hrun2
  rw [ensure_canvas_size_id app1 hp1w hp1h] at hrun2
  simp only [hdraw, hclose, if_true] at hrun2
  unfold PaintApp.process_drawing_gesture at hrun2
  simp only [if_pos hbelow] at hrun2
  rw [draw_line_from_reset _ _ _ _ _ hp1x hp1b] at hrun2
  simp only [Except.ok.injEq, Prod.mk.injEq] at hrun2
  obtain ⟨happ2, -, hd2⟩ := hrun2
  refine ⟨hp1x, hp1y, hp1b, ?_, hd2.symm⟩
  rw [← happ2]

/-- Concrete application state mid-stroke: the default state with a pen
position committed at (5, 5). -/
def app_pen_down : PaintApp :=
  { PaintApp.init with
      canvas := { PaintApp.init.canvas with
                    prev_x := some 5, prev_y := some 5,
                    position_buffer := [(5, 5)] } }

/-- Concrete landmark snapshot in Draw posture with the index tip at the
frame center and well in front of the wrist (z = -1), so the modelled depth
gate passes. -/
def hand_close_example : Hand :=
  [⟨0, 0, 0⟩, ⟨0, 0, 0⟩, ⟨0, 0, 0⟩, ⟨0, 0, 0⟩, ⟨0, 0, 0⟩,
   ⟨0, 0, 0⟩, ⟨0, 2, 0⟩, ⟨0, 0, 0⟩, ⟨1/2, 1/2, -1⟩,
   ⟨0, 0, 0⟩, ⟨0, 2, 0⟩, ⟨0, 0, 0⟩, ⟨0, 3, 0⟩,
   ⟨0, 0, 0⟩, ⟨0, 2, 0⟩, ⟨0, 0, 0⟩, ⟨0, 3, 0⟩,
   ⟨0, 0, 0⟩, ⟨0, 2, 0⟩, ⟨0, 0, 0⟩, ⟨0, 3, 0⟩]

theorem pen_lift_isolation_witness :
    ∃ app2 st2 d2,
      app_pen_down.process_frame_modelled none 640 480 =
        Except.ok (PaintApp.init, "NO HAND DETECTED", false) ∧
      PaintApp.init.process_frame_modelled (some hand_close_example) 640 480 =
        Except.ok (app2, st2, d2) ∧
      PaintApp.init.canvas.prev_x = none ∧
      PaintApp.init.canvas.position_buffer = [] ∧
      app2.canvas.canvas =
        Img.circle PaintApp.init.canvas.canvas (500, 350) 1 (0, 0, 255) ∧
      d2 = true := by
  have hrun1 : app_pen_down.process_frame_modelled none 640 480 =
      Except.ok (PaintApp.init, "NO HAND DETECTED", false) := rfl
  obtain ⟨⟨app2, st2, d2⟩, hrun2⟩ :=
    process_frame_modelled_ok PaintApp.init (some hand_close_example) 640 480
  have hpoint : canvas_point hand_close_example 640 480 = (500, 350) := by
    norm_num [canvas_point, get_index_finger_position, landmark, hand_close_example,
      INDEX_FINGER_TIP, ratTrunc]
  have h := pen_lift_isolation app_pen_down 5 5 none 640 480 rfl rfl (Or.inl rfl)
    PaintApp.init "NO HAND DETECTED" false hrun1 hand_close_example 640 480
    (by norm_num [is_index_finger_up, landmark, hand_close_example,
      INDEX_FINGER_TIP, INDEX_FINGER_PIP, MIDDLE_FINGER_TIP, MIDDLE_FINGER_PIP,
      RING_FINGER_TIP, RING_FINGER_PIP, PINKY_TIP, PINKY_PIP])
    (by norm_num [is_finger_close_enough, landmark, hand_close_example,
      INDEX_FINGER_TIP, WRIST, PaintApp.init])
    (by rw [hpoint]; norm_num [PaintApp.init, UI.init])
    app2 st2 d2 hrun2
  refine ⟨app2, st2, d2, hrun1, hrun2, h.1, h.2.2.1, ?_, h.2.2.2.2⟩
  have hc := h.2.2.2.1
  rw [hpoint] at hc
  simpa [PaintApp.init, (by decide : (3 : ℤ).fdiv 2 = 1)] using hc
